import Mathlib

/-!
Shallow embedding of pinfoplot (src/main.go): the sampling engine (`New`),
the three plot builders (`MemPlot`, `IoPlot`, `CpuPlot`) and the composite
renderer (`Save`).

Modelling conventions:
* Go `time.Duration` is an `Int` of nanoseconds; `d.Seconds()` becomes the
  exact rational `secondsQ`.
* Go `float64` plot coordinates and the CPU fraction are modelled as `Rat`;
  the claims settled here depend only on which values flow where, never on
  floating-point rounding.
* The external process-metrics provider (gopsutil) and the wall clock are
  modelled as environment data handed to `New`: the result of process
  resolution, the initial liveness query, the clock reading before each
  loop-condition check, and one `PollStep` of provider responses per loop
  iteration.
* Fallible Go calls return `Except GoError`; a Go runtime panic (integer
  division by zero, slice index out of range) is modelled as `Option.none`
  of the enclosing function, and so is exhaustion of the poll environment
  before the loop ends.
-/

set_option linter.unusedVariables false

namespace Pinfoplot

/-- Errors surfaced by the program. `insufficientSamples` is the one error the
sampler itself creates (main.go line 59); every other error object originates
outside (gopsutil, the file system) and is propagated verbatim, modelled as an
external error with a message. -/
inductive GoError where
  | insufficientSamples : GoError
  | external (msg : String) : GoError
deriving DecidableEq, Repr

/-- gopsutil process.MemoryInfoStat, the two fields main.go reads (bytes). -/
structure MemoryInfoStat where
  rss : Nat
  vms : Nat
deriving DecidableEq, Repr

/-- gopsutil process.IOCountersStat, the two fields main.go reads. -/
structure IOCountersStat where
  readCount : Nat
  writeCount : Nat
deriving DecidableEq, Repr

/-- main.go lines 251-256: one sample. The source names the elapsed-time field
`interval`; that name is kept. -/
structure Sample where
  mem : MemoryInfoStat
  ioCounters : IOCountersStat
  cpu : Rat
  interval : Int
deriving DecidableEq, Repr

/-- main.go lines 49-54: the run aggregate. -/
structure ProcessInfo where
  pid : Int
  startTime : Int
  samplingInterval : Int
  samples : List Sample
deriving DecidableEq, Repr

/-- Provider responses and the clock reading for one iteration of the polling
loop in `New` (main.go lines 82-109): the three metric queries, the liveness
re-check after the sleep, and the `time.Since(start)` reading taken by the
loop post-statement. -/
structure PollStep where
  mem : Except GoError MemoryInfoStat
  ioCounters : Except GoError IOCountersStat
  cpu : Except GoError Rat
  runningNext : Except GoError Bool
  tNext : Int
deriving Repr

/-- The polling loop of `New`, main.go lines 82-109. The condition transcribes
Go `duration == 0 || t <= duration && running` with its precedence
(`&&` binds tighter than `||`). Each iteration queries memory, I/O and CPU
(any failure returns that error alone, discarding `acc`), appends a sample
keyed by the loop-head time `t`, sleeps, re-checks liveness (failure again
returns the error alone) and re-reads the clock. `none` means the supplied
environment ended while the loop still wanted to iterate. -/
def samplerLoop (duration : Int) (t : Int) (running : Bool)
    (env : List PollStep) (acc : List Sample) :
    Option (Except GoError (List Sample)) :=
  if duration = 0 ∨ (t ≤ duration ∧ running) then
    match env with
    | [] => none
    | step :: rest =>
      match step.mem with
      | .error e => some (.error e)
      | .ok m =>
        match step.ioCounters with
        | .error e => some (.error e)
        | .ok ioc =>
          match step.cpu with
          | .error e => some (.error e)
          | .ok c =>
            let s : Sample := ⟨m, ioc, c, t⟩
            match step.runningNext with
            | .error e => some (.error e)
            | .ok r => samplerLoop duration step.tNext r rest (acc ++ [s])
  else
    some (.ok acc)

/-- main.go lines 56-111, `New`. Arguments beyond the three of the source are
the modelled environment: `resolve` is the outcome of `process.NewProcess`,
`running0` of the pre-loop `proc.IsRunning()`, `startTime` the wall-clock
start, `t0` the first `time.Since(start)` reading, and `env` the per-iteration
provider data. Go integer division panics when `interval` is zero, hence the
leading `none` case; otherwise `sampleNo := duration / interval` is Go
(truncated) division, `Int.tdiv`. -/
def New (pid duration interval : Int)
    (resolve : Except GoError Unit) (running0 : Except GoError Bool)
    (startTime t0 : Int) (env : List PollStep) :
    Option (Except GoError ProcessInfo) :=
  if interval = 0 then none
  else if duration.tdiv interval < 2 then some (.error .insufficientSamples)
  else
    match resolve with
    | .error e => some (.error e)
    | .ok _ =>
      match running0 with
      | .error e => some (.error e)
      | .ok running =>
        match samplerLoop duration t0 running env [] with
        | none => none
        | some (.error e) => some (.error e)
        | some (.ok ss) => some (.ok ⟨pid, startTime, interval, ss⟩)

/-- The elapsed-time values of a sample sequence, in order. -/
def elapsedList (ss : List Sample) : List Int := ss.map (·.interval)

/-- Go `time.Duration.Seconds()`: nanoseconds to seconds, exact here. -/
def secondsQ (d : Int) : Rat := (d : Rat) / 1000000000

/-- image/color RGBA. -/
structure RGBA where
  r : Nat
  g : Nat
  b : Nat
  a : Nat
deriving DecidableEq, Repr

/-- One plotter.XYs entry. -/
structure Point where
  x : Rat
  y : Rat
deriving DecidableEq, Repr

/-- plotter.Line: the copied points plus the style main.go sets. -/
structure Line where
  pts : List Point
  widthPts : Nat
  color : RGBA
deriving DecidableEq, Repr

/-- plot.Plot as main.go uses it: title, axis labels, the grid added by
`pl.Add(plotter.NewGrid())`, the data lines added by `pl.Add(line)` in order,
and the legend entries added by `pl.Legend.Add`. -/
structure Plot where
  title : String
  xLabel : String
  yLabel : String
  hasGrid : Bool
  lines : List Line
  legend : List (String × Line)
deriving DecidableEq, Repr

/-- plotter.NewLine copies the points and fails only when a coordinate is not
a finite float (plotter.CheckFloats); the rational embedding has no NaN or
infinity, so the copy always succeeds, on the empty list too. Style defaults
are then overwritten by the callers. -/
def newLine (pts : List Point) : Except GoError Line :=
  .ok { pts := pts, widthPts := 1, color := ⟨0, 0, 0, 255⟩ }

/-- main.go lines 113-151, `MemPlot`: RSS and VMS series in kilobytes over
elapsed seconds, red and green, both legended. -/
def MemPlot (pi : ProcessInfo) : Except GoError Plot := do
  let ptsRss := pi.samples.map
    (fun s => Point.mk (secondsQ s.interval) ((s.mem.rss : Rat) / 1024))
  let ptsVms := pi.samples.map
    (fun s => Point.mk (secondsQ s.interval) ((s.mem.vms : Rat) / 1024))
  let lineRss ← newLine ptsRss
  let lineRss := { lineRss with color := ⟨255, 0, 0, 255⟩ }
  let lineVms ← newLine ptsVms
  let lineVms := { lineVms with color := ⟨0, 255, 0, 255⟩ }
  pure { title := s!"Memory Plot of PID {pi.pid}"
         xLabel := "t (s)"
         yLabel := "KB"
         hasGrid := true
         lines := [lineRss, lineVms]
         legend := [("RSS", lineRss), ("VMS", lineVms)] }

/-- main.go lines 153-191, `IoPlot`. Transcribed faithfully: `ptsW` is built
from the write counters (line 170) but the write line is then constructed
from `ptsR` (line 182: `plotter.NewLine(ptsR)`), so `ptsW` is never used. -/
def IoPlot (pi : ProcessInfo) : Except GoError Plot := do
  let ptsR := pi.samples.map
    (fun s => Point.mk (secondsQ s.interval) (s.ioCounters.readCount : Rat))
  let ptsW := pi.samples.map
    (fun s => Point.mk (secondsQ s.interval) (s.ioCounters.writeCount : Rat))
  let lineR ← newLine ptsR
  let lineR := { lineR with color := ⟨255, 0, 0, 255⟩ }
  let lineW ← newLine ptsR
  let lineW := { lineW with color := ⟨0, 255, 0, 255⟩ }
  pure { title := s!"IO Plot of PID {pi.pid}"
         xLabel := "t (s)"
         yLabel := "op"
         hasGrid := true
         lines := [lineR, lineW]
         legend := [("IO Read", lineR), ("IO Write", lineW)] }

/-- main.go lines 193-217, `CpuPlot`: one series, fraction scaled to percent,
black, legended. -/
def CpuPlot (pi : ProcessInfo) : Except GoError Plot := do
  let pts := pi.samples.map
    (fun s => Point.mk (secondsQ s.interval) (s.cpu * 100))
  let line ← newLine pts
  let line := { line with color := ⟨0, 0, 0, 255⟩ }
  pure { title := s!"CPU Plot of PID {pi.pid}"
         xLabel := "t (s)"
         yLabel := "%"
         hasGrid := true
         lines := [line]
         legend := [("CPU", line)] }

/-- One `plots[j][i].Draw(canvases[j][i])` call: which grid cell received
which panel. -/
structure DrawOp where
  row : Nat
  col : Nat
  panel : Plot
deriving DecidableEq, Repr

/-- The observable outcome of a successful `Save`: the tile dimensions handed
to draw.Tiles and the draw calls in execution order. -/
structure Rendered where
  rows : Nat
  cols : Nat
  draws : List DrawOp
deriving DecidableEq, Repr

/-- main.go lines 223-249, `Save`. `rows := len(plots)`, `cols :=
len(plots[0])` — indexing `plots[0]` of an empty slice panics (modelled
`none`), and so does `plots[j][i]` when row `j` is shorter than `cols`. A nil
entry is skipped, a non-nil one is drawn into its cell in row-major order.
`createRes` and `writeRes` stand for `os.Create` and `png.WriteTo`; their
errors are returned verbatim. Width and height are passed to the canvas
without any check. -/
def Save (plots : List (List (Option Plot))) (width height : Rat)
    (createRes writeRes : Except GoError Unit) :
    Option (Except GoError Rendered) :=
  match plots with
  | [] => none
  | row0 :: _ =>
    let rows := plots.length
    let cols := row0.length
    if plots.all (fun r => cols ≤ r.length) then
      let draws := (List.range rows).flatMap (fun j =>
        (List.range cols).filterMap (fun i =>
          ((plots.getD j []).getD i none).map (fun p => DrawOp.mk j i p)))
      some (match createRes with
        | .error e => .error e
        | .ok _ =>
          match writeRes with
          | .error e => .error e
          | .ok _ => .ok ⟨rows, cols, draws⟩)
    else none

/-- main.go lines 291-294: the grid main builds, one panel per row in
creation order memory, I/O, CPU. -/
def mainGrid (memPlot ioPlot cpuPlot : Plot) : List (List (Option Plot)) :=
  [[some memPlot], [some ioPlot], [some cpuPlot]]

/-- The loop-head clock readings of a run: the initial `time.Since(start)`
and the reading the loop post-statement takes after each iteration. -/
def clockReads (t0 : Int) (env : List PollStep) : List Int :=
  t0 :: env.map (·.tNext)

/-!
## Theorems
-/

/-- The polling loop returns the accumulated samples unchanged as soon as its
condition fails, whatever environment remains. -/
theorem samplerLoop_stop (duration t : Int) (running : Bool)
    (env : List PollStep) (acc : List Sample)
    (h : ¬(duration = 0 ∨ (t ≤ duration ∧ running))) :
    samplerLoop duration t running env acc = some (Except.ok acc) := by
  cases env <;> simp only [samplerLoop, if_neg h]

/-- C1: evaluation at the failing input, totalDuration = 0 with a resolvable,
running target (pid 123, interval 50ms). The minimum-sample guard computes
0 / 50000000 = 0 < 2 and rejects with the insufficient-samples error before
consulting the process or the provider at all (the result is the same for
every resolution outcome and environment), so the documented sentinel
"duration 0 means sample until the pid exits" (flag text line 32, comment
line 81, message line 281) is unreachable. -/
theorem c1_duration_zero_rejected (resolve : Except GoError Unit)
    (running0 : Except GoError Bool) (st t0 : Int) (env : List PollStep) :
    New 123 0 50000000 resolve running0 st t0 env =
      some (Except.error GoError.insufficientSamples) := by rfl

/-- C3: a configuration whose truncated quotient totalDuration / interval is
below 2 is rejected with the insufficient-samples error, uniformly in the
process-resolution outcome, the liveness answer and the whole poll
environment (so the provider is never consulted); conversely a call that
returns a run satisfies totalDuration / interval >= 2. The hypothesis
interval /= 0 excludes the division-by-zero panic. -/
theorem c3_min_samples_guard (pid duration interval : Int) (hiv : interval ≠ 0)
    (resolve : Except GoError Unit) (running0 : Except GoError Bool)
    (st t0 : Int) (env : List PollStep) :
    (duration.tdiv interval < 2 →
      New pid duration interval resolve running0 st t0 env =
        some (Except.error GoError.insufficientSamples)) ∧
    (∀ pi, New pid duration interval resolve running0 st t0 env =
        some (Except.ok pi) → 2 ≤ duration.tdiv interval) := by
  constructor
  · intro hlt
    simp [New, hiv, hlt]
  · intro pi hok
    by_contra hcon
    push_neg at hcon
    simp [New, hiv, hcon] at hok

/-- C3 witness: the rejected scenario of the spec, duration 500ms with
interval 1s. -/
theorem c3_min_samples_guard_witness :
    New 1 500000000 1000000000 (Except.ok ()) (Except.ok true) 0 0 [] =
      some (Except.error GoError.insufficientSamples) :=
  (c3_min_samples_guard 1 500000000 1000000000 (by decide) (Except.ok ())
    (Except.ok true) 0 0 []).1 (by decide)

/-- C4 counterexample: the handle resolves but the process reports not
running at call time (duration 100, interval 50, guard passes); `New`
returns a SUCCESSFUL run with zero samples, not a process-not-found error. -/
theorem c4_not_running_returns_success :
    New 7 100 50 (Except.ok ()) (Except.ok false) 0 0 [] =
      some (Except.ok ⟨7, 0, 50, []⟩) := by rfl

/-- C4 amended: when handle resolution or the initial liveness query fails,
`New` returns exactly that error and no samples; but a process that resolves
and merely reports not running at call time produces a successful run with
zero samples rather than an error. -/
theorem c4_not_found_amended (pid duration interval st t0 : Int)
    (env : List PollStep) (hacc : 2 ≤ duration.tdiv interval) :
    (∀ e running0, New pid duration interval (Except.error e) running0 st t0 env =
      some (Except.error e)) ∧
    (∀ e, New pid duration interval (Except.ok ()) (Except.error e) st t0 env =
      some (Except.error e)) ∧
    New pid duration interval (Except.ok ()) (Except.ok false) st t0 env =
      some (Except.ok ⟨pid, st, interval, []⟩) := by
  have hiv : interval ≠ 0 := by
    rintro rfl
    simp [Int.tdiv_zero] at hacc
  have hdur : duration ≠ 0 := by
    rintro rfl
    simp [Int.zero_tdiv] at hacc
  have h2 : ¬ duration.tdiv interval < 2 := not_lt.mpr hacc
  refine ⟨?_, ?_, ?_⟩
  · intro e running0
    simp [New, hiv, h2]
  · intro e
    simp [New, hiv, h2]
  · have hstop : samplerLoop duration t0 false env [] = some (Except.ok []) := by
      apply samplerLoop_stop
      simp [hdur]
    simp [New, hiv, h2, hstop]

/-- C4 amended, witness: duration 200, interval 50, process not running. -/
theorem c4_not_found_amended_witness :
    New 9 200 50 (Except.ok ()) (Except.ok false) 0 5 [] =
      some (Except.ok ⟨9, 0, 50, []⟩) :=
  (c4_not_found_amended 9 200 50 0 5 [] (by decide)).2.2

/-- C2: evaluation at the failing input, a run with one sample whose I/O
counters are 5 reads and 7 writes. Both lines of the resulting I/O panel
carry the y-value 5: the write line was constructed from the read points
(main.go line 182), so the write count 7 appears nowhere, although the
unused `ptsW` had computed it. -/
theorem c2_write_line_duplicates_read :
    (IoPlot ⟨1, 0, 50, [⟨⟨0, 0⟩, ⟨5, 7⟩, 0, 0⟩]⟩).map
        (fun pl => pl.lines.map (fun l => l.pts.map Point.y)) =
      Except.ok [[5], [5]] := by rfl

/-- C5 counterexample: on a run with zero samples all three builders return
a panel (whose series are empty) instead of failing: no empty-run check
exists anywhere in the builders. -/
theorem c5_zero_samples_builders_succeed :
    (MemPlot ⟨1, 0, 50, []⟩).map (fun pl => pl.lines.map Line.pts) =
      Except.ok [[], []] ∧
    (IoPlot ⟨1, 0, 50, []⟩).map (fun pl => pl.lines.map Line.pts) =
      Except.ok [[], []] ∧
    (CpuPlot ⟨1, 0, 50, []⟩).map (fun pl => pl.lines.map Line.pts) =
      Except.ok [[]] := ⟨rfl, rfl, rfl⟩

/-- C5 amended: each builder applied to a run with zero samples succeeds and
returns a panel whose series are all empty; no EmptyPlotError is raised (the
underlying line constructor fails only on non-finite coordinates, never on
emptiness, and the builders add no check of their own). -/
theorem c5_zero_samples_amended (pid st iv : Int) :
    (MemPlot ⟨pid, st, iv, []⟩).map (fun pl => pl.lines.map Line.pts) =
      Except.ok [[], []] ∧
    (IoPlot ⟨pid, st, iv, []⟩).map (fun pl => pl.lines.map Line.pts) =
      Except.ok [[], []] ∧
    (CpuPlot ⟨pid, st, iv, []⟩).map (fun pl => pl.lines.map Line.pts) =
      Except.ok [[]] := ⟨rfl, rfl, rfl⟩

/-- C6 counterexample: `Save` applied to an empty panel sequence evaluates
`len(plots[0])` on an empty slice and panics with an index-out-of-range
(modelled `none`); it does not return an EmptyGridError value — no such
error exists in the code. -/
theorem c6_empty_grid_panics :
    Save [] 10 8 (Except.ok ()) (Except.ok ()) = none := rfl

/-- C6 amended: `Save` is not total on its panel-sequence argument: an empty
sequence, or a row shorter than the first (in particular an empty row),
hits an index-out-of-range panic rather than an EmptyGridError; and the
width/height values are passed through without any positivity check, so
non-positive dimensions are accepted rather than rejected with an
InvalidDimensionError (the statement quantifies over all rational
dimensions, negative ones included). -/
theorem c6_save_partial_amended (w h : Rat) (p : Plot) :
    Save [] w h (Except.ok ()) (Except.ok ()) = none ∧
    Save [[some p], []] w h (Except.ok ()) (Except.ok ()) = none ∧
    Save [[some p]] w h (Except.ok ()) (Except.ok ()) =
      some (Except.ok ⟨1, 1, [⟨0, 0, p⟩]⟩) := ⟨rfl, rfl, rfl⟩

/-- C8: three panels laid out by main's grid render with rows = 3 (the number
of panels), cols = 1, and the draw calls happen in creation order: memory
into row 0, I/O into row 1, CPU into row 2 — none reordered or dropped. -/
theorem c8_panel_order (pm pio pc : Plot) (w h : Rat) :
    (mainGrid pm pio pc).length = 3 ∧
    Save (mainGrid pm pio pc) w h (Except.ok ()) (Except.ok ()) =
      some (Except.ok ⟨3, 1, [⟨0, 0, pm⟩, ⟨1, 0, pio⟩, ⟨2, 0, pc⟩]⟩) :=
  ⟨rfl, rfl⟩

/-- C7: from any loop state whose continuation condition holds, a failure of
the memory, I/O or CPU query in the current iteration makes the sampler
return exactly that error: the remaining environment is never consulted
(immediate abort), the samples accumulated so far do not appear in the
result (all discarded), and the sample of the failing iteration — for which
only a prefix of the three metrics was obtained — is never constructed or
appended. -/
theorem c7_metric_failure_aborts (duration t : Int) (running : Bool)
    (step : PollStep) (rest : List PollStep) (acc : List Sample) (e : GoError)
    (hcond : duration = 0 ∨ (t ≤ duration ∧ running))
    (hfail : step.mem = Except.error e ∨
      ((∃ m, step.mem = Except.ok m) ∧ step.ioCounters = Except.error e) ∨
      ((∃ m, step.mem = Except.ok m) ∧ (∃ ioc, step.ioCounters = Except.ok ioc) ∧
        step.cpu = Except.error e)) :
    samplerLoop duration t running (step :: rest) acc =
      some (Except.error e) := by
  rcases hfail with hm | ⟨⟨m, hm⟩, hio⟩ | ⟨⟨m, hm⟩, ⟨ioc, hio⟩, hc⟩
  · simp [samplerLoop, hcond, hm]
  · simp [samplerLoop, hcond, hm, hio]
  · simp [samplerLoop, hcond, hm, hio, hc]

/-- C7 witness: an in-window, running state with one sample already
accumulated; the memory query of the next iteration fails and the result is
that error alone. -/
theorem c7_metric_failure_aborts_witness :
    samplerLoop 100 0 true
      [⟨Except.error (GoError.external "mem query failed"), Except.ok ⟨1, 2⟩,
        Except.ok 0, Except.ok true, 50⟩]
      [⟨⟨3, 4⟩, ⟨5, 6⟩, 0, 0⟩] =
      some (Except.error (GoError.external "mem query failed")) :=
  c7_metric_failure_aborts 100 0 true _ [] _ _
    (Or.inr ⟨by decide, rfl⟩) (Or.inl rfl)

/-- C10: on any run, each builder produces series that all have exactly as
many points as there are samples and that share the same X coordinates,
namely the per-sample elapsed time in seconds: the two memory series, the
two I/O series and the CPU series are aligned point-for-point with the
sample sequence. -/
theorem c10_series_alignment (pi : ProcessInfo) :
    ((MemPlot pi).map (fun pl => pl.lines.map
        (fun l => (l.pts.length, l.pts.map Point.x))) =
      Except.ok [(pi.samples.length, pi.samples.map (fun s => secondsQ s.interval)),
        (pi.samples.length, pi.samples.map (fun s => secondsQ s.interval))]) ∧
    ((IoPlot pi).map (fun pl => pl.lines.map
        (fun l => (l.pts.length, l.pts.map Point.x))) =
      Except.ok [(pi.samples.length, pi.samples.map (fun s => secondsQ s.interval)),
        (pi.samples.length, pi.samples.map (fun s => secondsQ s.interval))]) ∧
    ((CpuPlot pi).map (fun pl => pl.lines.map
        (fun l => (l.pts.length, l.pts.map Point.x))) =
      Except.ok [(pi.samples.length, pi.samples.map (fun s => secondsQ s.interval))]) := by
  refine ⟨?_, ?_, ?_⟩ <;>
    simp [MemPlot, IoPlot, CpuPlot, newLine, Except.map, Bind.bind,
      Except.bind, Pure.pure, Except.pure, List.map_map, Function.comp]

/-- Invariant of the polling loop: every sample carries the loop-head clock
reading of its iteration, so if those readings are non-negative and
non-decreasing and the accumulator already satisfies the invariant, so does
any successfully returned sample list. -/
theorem samplerLoop_elapsed_aux (duration : Int) (env : List PollStep) :
    ∀ (t : Int) (running : Bool) (acc ss : List Sample),
      samplerLoop duration t running env acc = some (Except.ok ss) →
      0 ≤ t →
      List.Chain' (· ≤ ·) (t :: env.map PollStep.tNext) →
      (∀ x ∈ elapsedList acc, 0 ≤ x) →
      List.Chain' (· ≤ ·) (elapsedList acc ++ [t]) →
      (∀ x ∈ elapsedList ss, 0 ≤ x) ∧ List.Chain' (· ≤ ·) (elapsedList ss) := by
  induction env with
  | nil =>
    intro t running acc ss hrun ht hclock haccnn haccch
    by_cases hcond : duration = 0 ∨ (t ≤ duration ∧ running)
    · simp [samplerLoop, hcond] at hrun
    · rw [samplerLoop_stop _ _ _ _ _ hcond] at hrun
      obtain rfl : acc = ss := by simpa using hrun
      exact ⟨haccnn, haccch.left_of_append⟩
  | cons step rest ih =>
    intro t running acc ss hrun ht hclock haccnn haccch
    by_cases hcond : duration = 0 ∨ (t ≤ duration ∧ running)
    · cases hm : step.mem with
      | error e => simp [samplerLoop, hcond, hm] at hrun
      | ok m =>
        cases hio : step.ioCounters with
        | error e => simp [samplerLoop, hcond, hm, hio] at hrun
        | ok ioc =>
          cases hc : step.cpu with
          | error e => simp [samplerLoop, hcond, hm, hio, hc] at hrun
          | ok c =>
            cases hrn : step.runningNext with
            | error e => simp [samplerLoop, hcond, hm, hio, hc, hrn] at hrun
            | ok r =>
              have hrun' : samplerLoop duration step.tNext r rest
                  (acc ++ [⟨m, ioc, c, t⟩]) = some (Except.ok ss) := by
                rw [← hrun]
                simp [samplerLoop, hcond, hm, hio, hc, hrn]
              rw [List.map_cons] at hclock
              have hts : t ≤ step.tNext := (List.chain'_cons.mp hclock).1
              have h1 : 0 ≤ step.tNext := le_trans ht hts
              have h2 : List.Chain' (· ≤ ·) (step.tNext :: rest.map PollStep.tNext) :=
                (List.chain'_cons.mp hclock).2
              have hacc' : elapsedList (acc ++ [⟨m, ioc, c, t⟩]) =
                  elapsedList acc ++ [t] := by simp [elapsedList]
              have h3 : ∀ x ∈ elapsedList (acc ++ [⟨m, ioc, c, t⟩]), 0 ≤ x := by
                rw [hacc']
                intro x hx
                rcases List.mem_append.mp hx with hx | hx
                · exact haccnn x hx
                · simp at hx
                  exact hx ▸ ht
              have h4 : List.Chain' (· ≤ ·)
                  (elapsedList (acc ++ [⟨m, ioc, c, t⟩]) ++ [step.tNext]) := by
                rw [hacc']
                refine List.chain'_append.mpr ⟨haccch, List.chain'_singleton _, ?_⟩
                intro x hx y hy
                simp [List.getLast?_concat] at hx
                simp at hy
                rw [← hx, ← hy]
                exact hts
              exact ih step.tNext r (acc ++ [⟨m, ioc, c, t⟩]) ss hrun' h1 h2 h3 h4
    · rw [samplerLoop_stop _ _ _ _ _ hcond] at hrun
      obtain rfl : acc = ss := by simpa using hrun
      exact ⟨haccnn, haccch.left_of_append⟩

/-- C9: in every run `New` returns successfully, the elapsed values of the
sample sequence are non-negative and non-decreasing in sequence order, given
that the clock readings behave like a monotone clock (the first reading is
non-negative — time.Since of an earlier instant — and successive readings
never decrease). -/
theorem c9_elapsed_monotone (pid duration interval st t0 : Int)
    (resolve : Except GoError Unit) (running0 : Except GoError Bool)
    (env : List PollStep) (pi : ProcessInfo)
    (hok : New pid duration interval resolve running0 st t0 env =
      some (Except.ok pi))
    (ht0 : 0 ≤ t0)
    (hclock : List.Chain' (· ≤ ·) (clockReads t0 env)) :
    List.Chain' (· ≤ ·) (elapsedList pi.samples) ∧
    ∀ x ∈ elapsedList pi.samples, 0 ≤ x := by
  by_cases hiv : interval = 0
  · simp [New, hiv] at hok
  · by_cases hlt : duration.tdiv interval < 2
    · simp [New, hiv, hlt] at hok
    · cases resolve with
      | error e => simp [New, hiv, hlt] at hok
      | ok u =>
        cases running0 with
        | error e => simp [New, hiv, hlt] at hok
        | ok r =>
          cases hsl : samplerLoop duration t0 r env [] with
          | none => simp [New, hiv, hlt, hsl] at hok
          | some res =>
            cases res with
            | error e => simp [New, hiv, hlt, hsl] at hok
            | ok ss =>
              have hpi : pi = ⟨pid, st, interval, ss⟩ := by
                have := hok
                simp [New, hiv, hlt, hsl] at this
                exact this.symm
              have haux := samplerLoop_elapsed_aux duration env t0 r [] ss hsl
                ht0 hclock (by simp [elapsedList]) (by simp [elapsedList])
              rw [hpi]
              exact ⟨haux.2, haux.1⟩

/-- C9 witness: a run of two samples taken at clock readings 0 and 60 within
a 100ns window. -/
theorem c9_elapsed_monotone_witness :
    List.Chain' (· ≤ ·) (elapsedList (⟨5, 0, 50,
      [⟨⟨100, 200⟩, ⟨1, 2⟩, 0, 0⟩, ⟨⟨100, 200⟩, ⟨1, 3⟩, 0, 60⟩]⟩ :
        ProcessInfo).samples) ∧
    ∀ x ∈ elapsedList (⟨5, 0, 50,
      [⟨⟨100, 200⟩, ⟨1, 2⟩, 0, 0⟩, ⟨⟨100, 200⟩, ⟨1, 3⟩, 0, 60⟩]⟩ :
        ProcessInfo).samples, 0 ≤ x :=
  c9_elapsed_monotone 5 100 50 0 0 (Except.ok ()) (Except.ok true)
    [⟨Except.ok ⟨100, 200⟩, Except.ok ⟨1, 2⟩, Except.ok 0, Except.ok true, 60⟩,
     ⟨Except.ok ⟨100, 200⟩, Except.ok ⟨1, 3⟩, Except.ok 0, Except.ok false, 120⟩]
    _ (by rfl) (by decide) (by simp [clockReads, List.chain'_cons])

end Pinfoplot
